import Mathlib

/-!
Verification of the telemetry aggregation subsystem of the course-catalog
Flask application (src/app.py).

The telemetry store `telemetry_data` is a Python dict of three dicts.  We
model each dict as an insertion-ordered association list with unique keys,
which matches CPython dict semantics for the operations the code uses
(`setdefault`, `+=` on a present key, lookup, equality).  Route identifiers
are `request.endpoint`, which is either a string or Python's `None` (for an
unmatched URL), so route keys are modelled as `Option String`; `none`
stands for Python `None`.  Timestamps and elapsed times (`time.time()`
arithmetic) are modelled as exact rationals.
-/

/-- Lookup in an association list, first matching key (CPython dicts hold
each key at most once, which all operations below preserve). -/
def alookup {α β : Type} [DecidableEq α] : List (α × β) → α → Option β
  | [], _ => none
  | p :: t, k => if p.1 = k then some p.2 else alookup t k

/-- Python `d.setdefault(k, z)`: if `k` is absent, insert it at the end
with value `z`; otherwise leave the dict unchanged. -/
def setdefault {α β : Type} [DecidableEq α] : List (α × β) → α → β → List (α × β)
  | [], k, z => [(k, z)]
  | p :: t, k, z => if p.1 = k then p :: t else p :: setdefault t k z

/-- Python `d[k] += v` on a key known to be present: update the value in
place, preserving insertion order. -/
def addAt {α β : Type} [DecidableEq α] [Add β] : List (α × β) → α → β → List (α × β)
  | [], _, _ => []
  | p :: t, k, v => (if p.1 = k then (p.1, p.2 + v) else p) :: addAt t k v

/-- The `d.setdefault(k, 0)` followed by `d[k] += v` pattern used by
`before_request`, `after_request` and `log_error` in src/app.py. -/
def bump {α β : Type} [DecidableEq α] [Add β] (l : List (α × β)) (k : α) (z v : β) :
    List (α × β) :=
  addAt (setdefault l k z) k v

theorem alookup_addAt_self {α β : Type} [DecidableEq α] [Add β]
    (l : List (α × β)) (k : α) (v : β) :
    alookup (addAt l k v) k = (alookup l k).map (fun w => w + v) := by
  induction l with
  | nil => rfl
  | cons p t ih =>
    by_cases h : p.1 = k
    · simp [addAt, alookup, h]
    · simp [addAt, alookup, h, ih]

theorem alookup_addAt_ne {α β : Type} [DecidableEq α] [Add β]
    (l : List (α × β)) (k k' : α) (v : β) (h : k' ≠ k) :
    alookup (addAt l k v) k' = alookup l k' := by
  have hk : ¬ k = k' := fun hc => h hc.symm
  induction l with
  | nil => rfl
  | cons p t ih =>
    by_cases hp : p.1 = k
    · simp [addAt, alookup, hp, hk, h, ih]
    · by_cases hp' : p.1 = k'
      · simp [addAt, alookup, hp, hp', hk, h]
      · simp [addAt, alookup, hp, hp', ih]

theorem alookup_setdefault_self {α β : Type} [DecidableEq α]
    (l : List (α × β)) (k : α) (z : β) :
    alookup (setdefault l k z) k = some ((alookup l k).getD z) := by
  induction l with
  | nil => simp [setdefault, alookup]
  | cons p t ih =>
    by_cases h : p.1 = k
    · simp [setdefault, alookup, h]
    · simp [setdefault, alookup, h, ih]

theorem alookup_setdefault_ne {α β : Type} [DecidableEq α]
    (l : List (α × β)) (k k' : α) (z : β) (h : k' ≠ k) :
    alookup (setdefault l k z) k' = alookup l k' := by
  have hk : ¬ k = k' := fun hc => h hc.symm
  induction l with
  | nil => simp [setdefault, alookup, hk]
  | cons p t ih =>
    by_cases hp : p.1 = k
    · simp [setdefault, alookup, hp, hk, h]
    · by_cases hp' : p.1 = k'
      · simp [setdefault, alookup, hp, hp', hk, h]
      · simp [setdefault, alookup, hp, hp', ih]

theorem alookup_bump_self {α β : Type} [DecidableEq α] [Add β]
    (l : List (α × β)) (k : α) (z v : β) :
    alookup (bump l k z v) k = some ((alookup l k).getD z + v) := by
  rw [bump, alookup_addAt_self, alookup_setdefault_self]
  rfl

theorem alookup_bump_ne {α β : Type} [DecidableEq α] [Add β]
    (l : List (α × β)) (k k' : α) (z v : β) (h : k' ≠ k) :
    alookup (bump l k z v) k' = alookup l k' := by
  rw [bump, alookup_addAt_ne _ _ _ _ h, alookup_setdefault_ne _ _ _ _ h]

/-- The process-wide telemetry aggregate: the three dicts initialised in
src/app.py lines 21-25.  Route keys are `Option String` because
`request.endpoint` is `None` for an unmatched URL. -/
structure TelemetryData where
  route_requests : List (Option String × Nat)
  route_processing_time : List (Option String × ℚ)
  errors : List (String × Nat)
deriving DecidableEq, Repr

/-- The initial value of the module-level `telemetry_data` dict
(src/app.py lines 21-25): all three mappings empty. -/
def telemetry_data : TelemetryData := ⟨[], [], []⟩

def getCount (s : TelemetryData) (r : Option String) : Nat :=
  (alookup s.route_requests r).getD 0

def getTime (s : TelemetryData) (r : Option String) : ℚ :=
  (alookup s.route_processing_time r).getD 0

def getErr (s : TelemetryData) (m : String) : Nat :=
  (alookup s.errors m).getD 0

/-- Flask's `g` object as used by the hooks: `before_request` stores
`g.start_time = time.time()` (src/app.py line 100). -/
structure ReqCtx where
  start_time : ℚ
deriving DecidableEq, Repr

/-- The `before_request` hook (src/app.py lines 98-104): record the start
timestamp in `g`, then `setdefault(route, 0)` and increment
`route_requests[route]` by 1.  (The log line has no effect on the store.) -/
def before_request (route : Option String) (now : ℚ) (s : TelemetryData) :
    ReqCtx × TelemetryData :=
  (⟨now⟩, { s with route_requests := bump s.route_requests route 0 1 })

/-- The in-memory effect of the `after_request` hook (src/app.py lines
106-112): compute `processing_time = time.time() - g.start_time`, then
`setdefault(route, 0)` and add it to `route_processing_time[route]`.
The flush it triggers (line 113) is modelled separately. -/
def after_request (route : Option String) (now : ℚ) (g : ReqCtx) (s : TelemetryData) :
    TelemetryData :=
  { s with route_processing_time := bump s.route_processing_time route 0 (now - g.start_time) }

/-- The in-memory effect of `log_error` (src/app.py lines 117-118):
`setdefault(message, 0)` then increment `errors[message]` by 1. -/
def record_error (error_message : String) (s : TelemetryData) : TelemetryData :=
  { s with errors := bump s.errors error_message 0 1 }

/-- Outcome of dispatching one handler. -/
inductive HandlerOutcome where
  /-- The handler produced a response (normal return, or a domain error it
  already turned into a redirect/flash response). -/
  | completed
  /-- The handler raised an exception that is not converted into a
  response: with exception propagation enabled (the app is started via
  `app.run(debug=True)`, src/app.py line 216) Flask re-raises it out of
  the WSGI app. -/
  | raised
deriving DecidableEq, Repr

/-- One full request through Flask's hook machinery as configured in
src/app.py: `before_request` always runs first (it runs even for an
unmatched URL, where `request.endpoint` is `None`); the `after_request`
functions run only when a response is produced.  When the handler raises
and the exception propagates (debug mode, line 216), Flask skips the
`after_request` functions, so the store keeps only the `before_request`
mutation. -/
def processRequest (route : Option String) (t0 t1 : ℚ) (o : HandlerOutcome)
    (s : TelemetryData) : TelemetryData :=
  let br := before_request route t0 s
  match o with
  | HandlerOutcome.completed => after_request route t1 br.1 br.2
  | HandlerOutcome.raised => br.2

/-- One request that completes the full entry-hook/exit-hook lifecycle,
entering at time `t0` and leaving at time `t0 + d`, so the elapsed time
computed by `after_request` is `d`. -/
def completeRequest (route : Option String) (t0 d : ℚ) (s : TelemetryData) :
    TelemetryData :=
  processRequest route t0 (t0 + d) HandlerOutcome.completed s

theorem getCount_completeRequest (route : Option String) (t0 d : ℚ) (s : TelemetryData) :
    getCount (completeRequest route t0 d s) route = getCount s route + 1 := by
  simp [completeRequest, processRequest, after_request, before_request, getCount,
    alookup_bump_self]

theorem getTime_completeRequest (route : Option String) (t0 d : ℚ) (s : TelemetryData) :
    getTime (completeRequest route t0 d s) route = getTime s route + d := by
  simp [completeRequest, processRequest, after_request, before_request, getTime,
    alookup_bump_self]

/-- C2: for every route, every starting state (with current count `c` and
cumulative time `t`, both read as 0 when the key is absent) and every
sequence of completed requests with elapsed durations `d1..dN`, afterwards
the route's request count is `c + N` and its cumulative processing time is
`t + (d1 + ... + dN)`. -/
theorem request_lifecycle_accumulates (route : Option String) (t0 : ℚ)
    (ds : List ℚ) (s : TelemetryData) :
    getCount (ds.foldl (fun st d => completeRequest route t0 d st) s) route
        = getCount s route + ds.length ∧
    getTime (ds.foldl (fun st d => completeRequest route t0 d st) s) route
        = getTime s route + ds.sum := by
  induction ds generalizing s with
  | nil => simp
  | cons d rest ih =>
    have h := ih (completeRequest route t0 d s)
    constructor
    · rw [List.foldl_cons, h.1, getCount_completeRequest]
      simp [Nat.add_assoc, Nat.add_comm 1 rest.length]
    · rw [List.foldl_cons, h.2, getTime_completeRequest]
      rw [List.sum_cons]
      ring

/-- C9: `before_request` is total over all route identifiers, including
the unresolved `none` endpoint of an unmatched URL: it treats the value as
another mapping key, creating the entry at 0 if absent and incrementing it
by 1, touches nothing else, and records the start timestamp. -/
theorem before_request_total_increment (route : Option String) (now : ℚ)
    (s : TelemetryData) :
    (∀ r' : Option String,
        alookup (before_request route now s).2.route_requests r'
          = if r' = route then some (getCount s route + 1)
            else alookup s.route_requests r') ∧
    (before_request route now s).2.route_processing_time = s.route_processing_time ∧
    (before_request route now s).2.errors = s.errors ∧
    (before_request route now s).1.start_time = now := by
  refine ⟨?_, rfl, rfl, rfl⟩
  intro r'
  by_cases h : r' = route
  · subst h
    simp [before_request, getCount, alookup_bump_self]
  · simp [before_request, h, alookup_bump_ne _ _ _ _ _ h]

/-- C1 evidence: a handler fault after the entry hook leaves an orphaned
start.  A request to the `course_catalog` endpoint whose handler raises an
unhandled exception (Flask then skips `after_request` because the
exception propagates under `debug=True`) increments
`route_requests["course_catalog"]` to 1 while
`route_processing_time["course_catalog"]` is never created, so a request
is counted whose processing time was never accumulated. -/
theorem after_request_skipped_on_fault :
    alookup (processRequest (some "course_catalog") 0 1 HandlerOutcome.raised
        telemetry_data).route_requests (some "course_catalog") = some 1 ∧
    alookup (processRequest (some "course_catalog") 0 1 HandlerOutcome.raised
        telemetry_data).route_processing_time (some "course_catalog") = none := by
  constructor <;> rfl

/-- One in-memory mutation of the telemetry store, as performed by the
three operations in src/app.py: the entry hook (lines 98-104), the exit
hook's accumulation (lines 106-112, with the start timestamp it read from
`g`), and `log_error`'s tally (lines 117-118). -/
inductive TelemetryOp where
  | start (route : Option String) (now : ℚ)
  | finish (route : Option String) (startTime now : ℚ)
  | report (msg : String)
deriving DecidableEq, Repr

def applyOp : TelemetryOp → TelemetryData → TelemetryData
  | TelemetryOp.start r t, s => (before_request r t s).2
  | TelemetryOp.finish r t0 t1, s => after_request r t1 ⟨t0⟩ s
  | TelemetryOp.report m, s => record_error m s

def applyOps (ops : List TelemetryOp) (s : TelemetryData) : TelemetryData :=
  ops.foldl (fun st o => applyOp o st) s

/-- Number of `log_error` calls with message `m` in a sequence of
telemetry operations. -/
def countReports (m : String) : List TelemetryOp → Nat
  | [] => 0
  | TelemetryOp.report m' :: t => (if m' = m then 1 else 0) + countReports m t
  | _ :: t => countReports m t

/-- C6: for every error message `m` and every interleaving of telemetry
operations, the final `errors[m]` (0 when absent) is the prior value plus
the number of `log_error m` calls in the sequence; keys are the literal
message text, so each distinct message accumulates independently. -/
theorem errors_count_reports (ops : List TelemetryOp) (s : TelemetryData) (m : String) :
    getErr (applyOps ops s) m = getErr s m + countReports m ops := by
  induction ops generalizing s with
  | nil => rfl
  | cons op rest ih =>
    have hstep : getErr (applyOp op s) m
        = getErr s m + countReports m [op] := by
      cases op with
      | start r t => simp [applyOp, before_request, getErr, countReports]
      | finish r t0 t1 => simp [applyOp, after_request, getErr, countReports]
      | report m' =>
        by_cases h : m' = m
        · subst h
          simp [applyOp, record_error, getErr, countReports, alookup_bump_self]
        · have hm : m ≠ m' := fun hc => h hc.symm
          simp [applyOp, record_error, getErr, countReports, h,
            alookup_bump_ne _ _ _ _ _ hm]
    have : applyOps (op :: rest) s = applyOps rest (applyOp op s) := rfl
    rw [this, ih (applyOp op s), hstep]
    cases op with
    | start r t => simp [countReports]
    | finish r t0 t1 => simp [countReports]
    | report m' => simp [countReports]; omega

/-- Pointwise domination of association lists: every key present in `l`
is still present in `l'` with a value at least as large.  This expresses
both "the key set only grows" and "values only increase". -/
def mapLE {α β : Type} [DecidableEq α] [Preorder β] (l l' : List (α × β)) : Prop :=
  ∀ k v, alookup l k = some v → ∃ v', alookup l' k = some v' ∧ v ≤ v'

theorem mapLE_refl {α β : Type} [DecidableEq α] [Preorder β] (l : List (α × β)) :
    mapLE l l :=
  fun _ v h => ⟨v, h, le_refl v⟩

theorem mapLE_bump {α β : Type} [DecidableEq α] [Add β] [Preorder β]
    (l : List (α × β)) (k : α) (z v : β) (hv : ∀ w : β, w ≤ w + v) :
    mapLE l (bump l k z v) := by
  intro k' w hw
  by_cases hk : k' = k
  · subst hk
    refine ⟨(alookup l k').getD z + v, alookup_bump_self l k' z v, ?_⟩
    rw [hw]
    exact hv w
  · exact ⟨w, by rw [alookup_bump_ne _ _ _ _ _ hk]; exact hw, le_refl w⟩

/-- All three mappings of `s'` dominate those of `s`. -/
def dataLE (s s' : TelemetryData) : Prop :=
  mapLE s.route_requests s'.route_requests ∧
  mapLE s.route_processing_time s'.route_processing_time ∧
  mapLE s.errors s'.errors

/-- A `finish` operation is well-timed when the exit-hook timestamp is not
earlier than the start timestamp stored by the entry hook, i.e. the
wall clock did not run backwards between the two `time.time()` calls. -/
def opWellTimed : TelemetryOp → Prop
  | TelemetryOp.finish _ t0 t1 => t0 ≤ t1
  | _ => True

/-- C7: every telemetry operation preserves the monotonicity invariant:
key sets only grow and every count and cumulative time only increases
(for the exit hook, provided its elapsed time is non-negative); no
operation deletes a key or resets a value. -/
theorem telemetry_ops_monotone (op : TelemetryOp) (s : TelemetryData)
    (h : opWellTimed op) : dataLE s (applyOp op s) := by
  cases op with
  | start r t =>
    exact ⟨mapLE_bump s.route_requests r 0 1 (fun w => Nat.le_add_right w 1),
      mapLE_refl _, mapLE_refl _⟩
  | finish r t0 t1 =>
    have hv : ∀ w : ℚ, w ≤ w + (t1 - t0) := by
      intro w
      have : (0 : ℚ) ≤ t1 - t0 := sub_nonneg.mpr h
      linarith
    exact ⟨mapLE_refl _,
      mapLE_bump s.route_processing_time r 0 (t1 - t0) hv, mapLE_refl _⟩
  | report m =>
    exact ⟨mapLE_refl _, mapLE_refl _,
      mapLE_bump s.errors m 0 1 (fun w => Nat.le_add_right w 1)⟩

theorem telemetry_ops_monotone_witness :
    opWellTimed (TelemetryOp.report "x") ∧
    dataLE telemetry_data (applyOp (TelemetryOp.report "x") telemetry_data) :=
  ⟨trivial, telemetry_ops_monotone (TelemetryOp.report "x") telemetry_data trivial⟩

/-- An I/O fault raised by the disk write in `save_telemetry`
(src/app.py lines 92-95), e.g. disk full or permission denied. -/
inductive IOFault where
  | ioError
deriving DecidableEq, Repr

/-- The `log_error` function (src/app.py lines 116-120) with its flush
dependency made explicit: it first applies the in-memory increment, then
calls `save_telemetry` on the updated store.  There is no try/except, so
the flush's outcome — including a raised `IOFault` — is exactly what the
caller observes. -/
def log_error (sink : TelemetryData → Except IOFault Unit) (error_message : String)
    (s : TelemetryData) : TelemetryData × Except IOFault Unit :=
  let updated := record_error error_message s
  (updated, sink updated)

/-- The full `after_request` hook (src/app.py lines 106-114) with its
flush made explicit: accumulate the processing time, call
`save_telemetry`, and only then `return response`.  There is no
try/except, so a flush fault propagates and the response is never
returned. -/
def after_request_full (sink : TelemetryData → Except IOFault Unit)
    (route : Option String) (now : ℚ) (g : ReqCtx) (resp : Nat)
    (s : TelemetryData) : TelemetryData × Except IOFault Nat :=
  let updated := after_request route now g s
  match sink updated with
  | Except.ok _ => (updated, Except.ok resp)
  | Except.error e => (updated, Except.error e)

/-- A `save_telemetry` whose disk write always fails. -/
def failingSink (_ : TelemetryData) : Except IOFault Unit :=
  Except.error IOFault.ioError

/-- C4 counterexample: `log_error` is claimed never to raise regardless
of what its flush does, but with a failing `save_telemetry` the fault
escapes `log_error` to its caller. -/
theorem log_error_raises_on_flush_fault :
    (log_error failingSink "boom" telemetry_data).2
      = Except.error IOFault.ioError := rfl

/-- C4 amended: telemetry flush failures are not isolated.  If
`save_telemetry` fails, `log_error` propagates the fault to its caller
(after the in-memory increment has been applied), and a flush fault in
`after_request` likewise propagates, so the in-flight request is aborted
and the response is not returned. -/
theorem flush_fault_propagates (sink : TelemetryData → Except IOFault Unit)
    (m : String) (route : Option String) (now : ℚ) (g : ReqCtx) (resp : Nat)
    (s : TelemetryData) (e : IOFault) (h : ∀ st, sink st = Except.error e) :
    (log_error sink m s).2 = Except.error e ∧
    (log_error sink m s).1 = record_error m s ∧
    (after_request_full sink route now g resp s).2 = Except.error e := by
  refine ⟨?_, rfl, ?_⟩
  · simp [log_error, h]
  · simp [after_request_full, h]

theorem flush_fault_propagates_witness :
    (∀ st, failingSink st = Except.error IOFault.ioError) ∧
    ((log_error failingSink "x" telemetry_data).2 = Except.error IOFault.ioError ∧
     (log_error failingSink "x" telemetry_data).1 = record_error "x" telemetry_data ∧
     (after_request_full failingSink none 1 ⟨0⟩ 200 telemetry_data).2
        = Except.error IOFault.ioError) :=
  ⟨fun _ => rfl,
   flush_fault_propagates failingSink "x" none 1 ⟨0⟩ 200 telemetry_data
     IOFault.ioError (fun _ => rfl)⟩

/-- C10: `log_error` is not atomic with respect to flush failure: the
in-memory `errors[message]` increment is applied before the flush is
attempted, so the updated state it returns carries the increment whatever
the flush does, and the flush's outcome (success or fault) is passed
through to the caller unmodified. -/
theorem log_error_increment_before_flush (sink : TelemetryData → Except IOFault Unit)
    (m : String) (s : TelemetryData) :
    getErr (log_error sink m s).1 m = getErr s m + 1 ∧
    (log_error sink m s).2 = sink (log_error sink m s).1 := by
  constructor
  · simp [log_error, record_error, getErr, alookup_bump_self]
  · rfl

/-- State of one worker thread performing the unsynchronized
`telemetry_data["route_requests"][route] += 1` of src/app.py line 103.
The statement is a read of the current count followed by a write of
`read value + 1`; `pc` is 0 before the read, 1 between read and write
(with the value it read in `readVal`), and 2 when done. -/
structure IncThread where
  pc : Nat
  readVal : Nat
deriving DecidableEq, Repr

def nthThread : List IncThread → Nat → Option IncThread
  | [], _ => none
  | x :: _, 0 => some x
  | _ :: t, n + 1 => nthThread t n

def setThread : List IncThread → Nat → IncThread → List IncThread
  | [], _, _ => []
  | _ :: t, 0, a => a :: t
  | x :: t, n + 1, a => x :: setThread t n a

/-- One scheduler step: thread `i` executes its next micro-operation on
the shared counter.  src/app.py takes no lock (no `threading.Lock`
appears anywhere), so nothing prevents two threads from both reading
before either writes. -/
def raceStep (st : Nat × List IncThread) (i : Nat) : Nat × List IncThread :=
  match nthThread st.2 i with
  | none => st
  | some th =>
    match th.pc with
    | 0 => (st.1, setThread st.2 i ⟨1, st.1⟩)
    | 1 => (th.readVal + 1, setThread st.2 i ⟨2, th.readVal⟩)
    | _ => st

def raceRun : List Nat → Nat × List IncThread → Nat × List IncThread
  | [], st => st
  | i :: rest, st => raceRun rest (raceStep st i)

/-- The schedule in which each listed thread runs its read and its write
back to back, i.e. each increment executes without interleaving. -/
def serialSched : List Nat → List Nat
  | [] => []
  | i :: t => i :: i :: serialSched t

theorem nthThread_setThread_self (l : List IncThread) (i : Nat) (a b : IncThread)
    (h : nthThread l i = some b) : nthThread (setThread l i a) i = some a := by
  induction l generalizing i with
  | nil => simp [nthThread] at h
  | cons x t ih =>
    cases i with
    | zero => rfl
    | succ n => exact ih n (by simpa [nthThread] using h)

theorem nthThread_setThread_ne (l : List IncThread) (i j : Nat) (a : IncThread)
    (h : j ≠ i) : nthThread (setThread l i a) j = nthThread l j := by
  induction l generalizing i j with
  | nil => rfl
  | cons x t ih =>
    cases i with
    | zero =>
      cases j with
      | zero => exact absurd rfl h
      | succ m => rfl
    | succ n =>
      cases j with
      | zero => rfl
      | succ m => exact ih n m (fun hc => h (by rw [hc]))

/-- C3 counterexample: two concurrent unsynchronized increments of the
same counter can both complete while producing a total of 1, not 2: the
schedule lets both threads read the initial 0 before either writes.  This
is the read-modify-write race the code takes no lock against. -/
theorem concurrent_increment_lost_update :
    (raceRun [0, 1, 0, 1] (0, [⟨0, 0⟩, ⟨0, 0⟩])).1 = 1 ∧
    (raceRun [0, 1, 0, 1] (0, [⟨0, 0⟩, ⟨0, 0⟩])).2.all (fun th => th.pc == 2) = true ∧
    (raceRun [0, 1, 0, 1] (0, [⟨0, 0⟩, ⟨0, 0⟩])).1 ≠ 2 := by
  refine ⟨rfl, rfl, ?_⟩
  decide

/-- C3 amended: when the increments do not interleave (each thread's read
is immediately followed by its own write, as mutual exclusion would
force), no update is lost: `n` increments raise the shared counter by
exactly `n`. -/
theorem serialized_increments_exact : ∀ (idxs : List Nat) (shared : Nat)
    (ths : List IncThread), idxs.Nodup →
    (∀ i ∈ idxs, nthThread ths i = some ⟨0, 0⟩) →
    (raceRun (serialSched idxs) (shared, ths)).1 = shared + idxs.length := by
  intro idxs
  induction idxs with
  | nil => intro shared ths _ _; rfl
  | cons i rest ih =>
    intro shared ths hnd hth
    have hi : nthThread ths i = some ⟨0, 0⟩ := hth i (List.mem_cons_self i rest)
    have hnot : i ∉ rest := (List.nodup_cons.mp hnd).1
    have hrest : rest.Nodup := (List.nodup_cons.mp hnd).2
    have step1 : raceStep (shared, ths) i = (shared, setThread ths i ⟨1, shared⟩) := by
      simp [raceStep, hi]
    have hi2 : nthThread (setThread ths i ⟨1, shared⟩) i = some ⟨1, shared⟩ :=
      nthThread_setThread_self ths i ⟨1, shared⟩ ⟨0, 0⟩ hi
    have step2 : raceStep (shared, setThread ths i ⟨1, shared⟩) i
        = (shared + 1, setThread (setThread ths i ⟨1, shared⟩) i ⟨2, shared⟩) := by
      simp [raceStep, hi2]
    have hrun : raceRun (serialSched (i :: rest)) (shared, ths)
        = raceRun (serialSched rest)
            (shared + 1, setThread (setThread ths i ⟨1, shared⟩) i ⟨2, shared⟩) := by
      show raceRun (serialSched rest) (raceStep (raceStep (shared, ths) i) i) = _
      rw [step1, step2]
    rw [hrun, ih (shared + 1) _ hrest ?_]
    · simp [List.length_cons]
      omega
    · intro j hj
      have hji : j ≠ i := fun hc => hnot (hc ▸ hj)
      rw [nthThread_setThread_ne _ _ _ _ hji, nthThread_setThread_ne _ _ _ _ hji]
      exact hth j (List.mem_cons_of_mem i hj)

theorem serialized_increments_exact_witness :
    ([0, 1] : List Nat).Nodup ∧
    (∀ i ∈ ([0, 1] : List Nat), nthThread [⟨0, 0⟩, ⟨0, 0⟩] i = some ⟨0, 0⟩) ∧
    (raceRun (serialSched [0, 1]) (0, [⟨0, 0⟩, ⟨0, 0⟩])).1 = 0 + 2 :=
  ⟨by decide, by decide,
   serialized_increments_exact [0, 1] 0 [⟨0, 0⟩, ⟨0, 0⟩] (by decide) (by decide)⟩

/-- The on-disk telemetry document written by `save_telemetry`
(src/app.py lines 92-95): a JSON object with exactly the three top-level
fields, each an object mapping string keys to numbers (JSON object keys
are always strings; `json.dump` renders a Python `None` dict key as the
key `"null"`).  Numbers are modelled as exact rationals. -/
structure TelemetryDoc where
  route_requests : List (String × ℚ)
  route_processing_time : List (String × ℚ)
  errors : List (String × ℚ)
deriving DecidableEq, Repr

/-- How `json.dump` renders a dict key: a string key is written as
itself, the `None` key is written as the string `"null"`. -/
def jsonKey : Option String → String
  | none => "null"
  | some s => s

/-- Serialization of the in-memory store performed by
`json.dump(telemetry_data, file, indent=4)` (src/app.py line 95). -/
def dumpTelemetry (s : TelemetryData) : TelemetryDoc :=
  ⟨s.route_requests.map (fun p => (jsonKey p.1, (p.2 : ℚ))),
   s.route_processing_time.map (fun p => (jsonKey p.1, p.2)),
   s.errors.map (fun p => (p.1, (p.2 : ℚ)))⟩

/-- `save_telemetry` (src/app.py lines 92-95): `open(TELEMETRY_FILE, 'w')`
truncates the file, so the new contents are the serialized current store,
independent of whatever the file held before. -/
def save_telemetry (_oldContents : Option TelemetryDoc) (s : TelemetryData) :
    TelemetryDoc :=
  dumpTelemetry s

/-- Reading a JSON number back as a Python int, as `json.load` does for
integer literals: succeeds exactly on non-negative integers. -/
def qToNat (q : ℚ) : Option Nat :=
  if q.den = 1 ∧ 0 ≤ q.num then some q.num.toNat else none

/-- Re-parse the request-count field: `json.load` yields string keys and
int values. -/
def parseCounts : List (String × ℚ) → Option (List (Option String × Nat))
  | [] => some []
  | (k, q) :: t => do
      let n ← qToNat q
      let rest ← parseCounts t
      pure ((some k, n) :: rest)

/-- Re-parse the processing-time field: string keys, numeric values. -/
def parseTimes : List (String × ℚ) → List (Option String × ℚ)
  | [] => []
  | (k, q) :: t => (some k, q) :: parseTimes t

/-- Re-parse the error-count field. -/
def parseErrorCounts : List (String × ℚ) → Option (List (String × Nat))
  | [] => some []
  | (k, q) :: t => do
      let n ← qToNat q
      let rest ← parseErrorCounts t
      pure ((k, n) :: rest)

/-- Re-parsing the written document with `json.load`, into the same value
space as the in-memory store.  Every key read back from JSON is a string
(`some _`); Python `None` can never be recovered. -/
def parseTelemetry (d : TelemetryDoc) : Option TelemetryData := do
  let rr ← parseCounts d.route_requests
  let er ← parseErrorCounts d.errors
  pure ⟨rr, parseTimes d.route_processing_time, er⟩

theorem qToNat_natCast (n : ℕ) : qToNat (n : ℚ) = some n := by
  simp [qToNat, Rat.den_natCast, Rat.num_natCast]

theorem jsonKey_some (s : String) : jsonKey (some s) = s := rfl

theorem parseCounts_dump (l : List (Option String × Nat))
    (h : ∀ p ∈ l, p.1 ≠ none) :
    parseCounts (l.map (fun p => (jsonKey p.1, (p.2 : ℚ)))) = some l := by
  induction l with
  | nil => rfl
  | cons p t ih =>
    obtain ⟨k, v⟩ := p
    have hk : k ≠ none := h (k, v) (List.mem_cons_self _ _)
    obtain ⟨a, rfl⟩ : ∃ a, k = some a := by
      cases k with
      | none => exact absurd rfl hk
      | some a => exact ⟨a, rfl⟩
    have ht : parseCounts (t.map (fun p => (jsonKey p.1, (p.2 : ℚ)))) = some t :=
      ih (fun q hq => h q (List.mem_cons_of_mem _ hq))
    simp [parseCounts, jsonKey_some, qToNat_natCast, ht]

theorem parseTimes_dump (l : List (Option String × ℚ))
    (h : ∀ p ∈ l, p.1 ≠ none) :
    parseTimes (l.map (fun p => (jsonKey p.1, p.2))) = l := by
  induction l with
  | nil => rfl
  | cons p t ih =>
    obtain ⟨k, v⟩ := p
    have hk : k ≠ none := h (k, v) (List.mem_cons_self _ _)
    obtain ⟨a, rfl⟩ : ∃ a, k = some a := by
      cases k with
      | none => exact absurd rfl hk
      | some a => exact ⟨a, rfl⟩
    have ht := ih (fun q hq => h q (List.mem_cons_of_mem _ hq))
    simp [parseTimes, jsonKey_some, ht]

theorem parseErrorCounts_dump (l : List (String × Nat)) :
    parseErrorCounts (l.map (fun p => (p.1, (p.2 : ℚ)))) = some l := by
  induction l with
  | nil => rfl
  | cons p t ih => simp [parseErrorCounts, qToNat_natCast, ih]

/-- C5 amended: every flush fully replaces the file with a document of
exactly the three top-level string-keyed numeric mappings, independent of
the prior file contents (no append, no merge); and re-parsing the written
document yields content exactly equal to the in-memory snapshot provided
every route key is an actual string.  (A `None` route key — recorded for
a request to an unmatched URL — is serialized as the string key `"null"`
and re-parses as that string, so for such snapshots exact round-trip
equality fails; see the counterexample.) -/
theorem flush_overwrites_and_roundtrips (s : TelemetryData)
    (h1 : ∀ p ∈ s.route_requests, p.1 ≠ none)
    (h2 : ∀ p ∈ s.route_processing_time, p.1 ≠ none) :
    (∀ old old' : Option TelemetryDoc, save_telemetry old s = save_telemetry old' s) ∧
    parseTelemetry (save_telemetry none s) = some s := by
  refine ⟨fun _ _ => rfl, ?_⟩
  simp [parseTelemetry, save_telemetry, dumpTelemetry,
    parseCounts_dump s.route_requests h1,
    parseTimes_dump s.route_processing_time h2,
    parseErrorCounts_dump s.errors]

theorem flush_overwrites_and_roundtrips_witness :
    (∀ p ∈ (⟨[(some "index", 2)], [(some "index", 3)], [("missing field", 1)]⟩ :
        TelemetryData).route_requests, p.1 ≠ none) ∧
    (∀ p ∈ (⟨[(some "index", 2)], [(some "index", 3)], [("missing field", 1)]⟩ :
        TelemetryData).route_processing_time, p.1 ≠ none) ∧
    ((∀ old old' : Option TelemetryDoc,
        save_telemetry old
            (⟨[(some "index", 2)], [(some "index", 3)], [("missing field", 1)]⟩ :
              TelemetryData)
          = save_telemetry old'
              (⟨[(some "index", 2)], [(some "index", 3)], [("missing field", 1)]⟩ :
                TelemetryData)) ∧
      parseTelemetry (save_telemetry none
          (⟨[(some "index", 2)], [(some "index", 3)], [("missing field", 1)]⟩ :
            TelemetryData))
        = some (⟨[(some "index", 2)], [(some "index", 3)], [("missing field", 1)]⟩ :
            TelemetryData)) :=
  ⟨by decide, by decide,
   flush_overwrites_and_roundtrips
     (⟨[(some "index", 2)], [(some "index", 3)], [("missing field", 1)]⟩ : TelemetryData)
     (by decide) (by decide)⟩

/-- C5 counterexample: after a single request to an unmatched URL the
store is `(None ↦ 1, None ↦ 3, ∅)` (the `None` endpoint).  `json.dump`
writes the `None` key as the string `"null"`, and `json.load` reads back
the string `"null"`, not `None`, so the re-parsed document is not exactly
equal to the in-memory snapshot at flush time. -/
theorem roundtrip_fails_on_none_route :
    parseTelemetry (save_telemetry none
        (⟨[(none, 1)], [(none, 3)], []⟩ : TelemetryData))
      ≠ some (⟨[(none, 1)], [(none, 3)], []⟩ : TelemetryData) := by
  decide

/-- Process startup (module initialization of src/app.py): the store is
created as the three empty dicts (lines 21-25), and nothing in app.py
ever reads `TELEMETRY_FILE` back, so the initial state is the same
whatever document the previous run left on disk. -/
def moduleInit (_priorDisk : Option TelemetryDoc) : TelemetryData :=
  telemetry_data

/-- C8: at process start the telemetry state is the empty snapshot, for
every possible prior on-disk telemetry document (including none at all):
all three mappings are empty and the disk contents are never consulted. -/
theorem startup_state_empty :
    ∀ priorDisk : Option TelemetryDoc,
      moduleInit priorDisk = telemetry_data ∧
      (moduleInit priorDisk).route_requests = [] ∧
      (moduleInit priorDisk).route_processing_time = [] ∧
      (moduleInit priorDisk).errors = [] :=
  fun _ => ⟨rfl, rfl, rfl, rfl⟩
